import Mathlib

/-!
Verification of the PipeCD API-key verifier
(`pkg/app/server/apikeyverifier/verifier.go`) and the application
live-state file store (`pkg/app/api/applicationlivestatestore/filestore.go`).

The verifier's external dependencies (the key-id extraction function, the
local in-memory cache, the backing key store, the distributed last-used
cache and the record's secret-comparison capability) are modelled as an
explicit environment of functions; the control flow of `Verify` and
`checkAPIKey` is translated statement by statement from the Go source.
Side effects on the dependencies are made observable as call counters and
an explicit distributed-cache state in the returned result record.
-/

namespace ApiKeyVerifier

/-- A key record (`model.APIKey`).  Carries identity, the enablement flag
and the record's own secret-comparison capability: `compareKey raw = none`
means the raw key's secret matches (Go `CompareKey` returned a nil error),
`compareKey raw = some e` means the comparison failed with error `e`. -/
structure APIKey where
  id : String
  projectId : String
  disabled : Bool
  compareKey : String → Option String

/-- The errors `Verify` can return, one constructor per `return nil, err`
site in the Go source.  `malformedKey` is the error of
`model.ExtractAPIKeyID` propagated unchanged; the other constructors carry
the key identifier they wrap (the `%s` of the `fmt.Errorf` call) plus the
wrapped underlying error where the Go code wraps one with `%w`. -/
inductive VerifyError where
  | malformedKey (e : String)
  | notFound (id : String) (underlying : String)
  | disabled (id : String)
  | invalidSecret (id : String) (underlying : String)
  | lastUsedWriteFailure (id : String) (underlying : String)
deriving DecidableEq, Repr

/-- The environment of `Verify`: the behaviour of every external
dependency the verifier calls, plus the clock value observed by
`time.Now().Unix()` inside `checkAPIKey` and the initial contents of the
distributed last-used hash cache.  `Except.error` results model Go calls
returning a non-nil error. -/
structure Env where
  extract : String → Except String String
  localCacheGet : String → Except String APIKey
  localCachePut : String → APIKey → Option String
  storeGet : String → Except String APIKey
  lastUsedPut : String → Int → Option String
  lastUsed0 : List (String × Int)
  now : Int

/-- Write a field of the distributed hash cache (Redis `HSET` semantics:
set the field, keep the other fields). -/
def putAssoc (m : List (String × Int)) (k : String) (v : Int) : List (String × Int) :=
  match m with
  | [] => [(k, v)]
  | (k₁, v₁) :: rest => if k₁ = k then (k, v) :: rest else (k₁, v₁) :: putAssoc rest k v

/-- Read a field of the distributed hash cache. -/
def getAssoc (m : List (String × Int)) (k : String) : Option Int :=
  match m with
  | [] => none
  | (k₁, v₁) :: rest => if k₁ = k then some v₁ else getAssoc rest k

/-- Outcome of `checkAPIKey`: its returned error (or unit), how many times
it called `apiKeyLastUsedCache.Put`, and the distributed-cache state after
the call (unchanged when the `Put` itself failed). -/
structure CheckResult where
  result : Except VerifyError Unit
  lastUsedPutCount : Nat
  lastUsed : List (String × Int)

/-- Translation of `checkAPIKey` (verifier.go lines 88-102): fail with
`disabled` when the record is disabled, else fail with `invalidSecret`
when the record's comparison capability rejects the raw key, else write
`now` into the distributed last-used cache under the key id, failing with
`lastUsedWriteFailure` when that write fails. -/
def checkAPIKey (env : Env) (apiKey : APIKey) (id key : String) : CheckResult :=
  if apiKey.disabled then
    { result := .error (.disabled id), lastUsedPutCount := 0, lastUsed := env.lastUsed0 }
  else
    match apiKey.compareKey key with
    | some e =>
      { result := .error (.invalidSecret id e), lastUsedPutCount := 0, lastUsed := env.lastUsed0 }
    | none =>
      match env.lastUsedPut id env.now with
      | some e =>
        { result := .error (.lastUsedWriteFailure id e), lastUsedPutCount := 1,
          lastUsed := env.lastUsed0 }
      | none =>
        { result := .ok (), lastUsedPutCount := 1,
          lastUsed := putAssoc env.lastUsed0 id env.now }

/-- Outcome of `Verify`: the returned record or error, the number of calls
made to each dependency, the number of warnings sent to the logger, and
the distributed last-used cache state after the call. -/
structure VerifyResult where
  result : Except VerifyError APIKey
  localGetCount : Nat
  storeGetCount : Nat
  localPutCount : Nat
  warnCount : Nat
  lastUsedPutCount : Nat
  lastUsed : List (String × Int)

/-- Translation of `Verify` (verifier.go lines 54-86): extract the key id
(propagating the extraction error), try the local cache, on any cache
error fetch from the backing store (wrapping a store error as `notFound`),
write the fetched record back to the local cache (logging a warning on
failure and continuing), then validate via `checkAPIKey` and return the
record on success. -/
def Verify (env : Env) (key : String) : VerifyResult :=
  match env.extract key with
  | .error e =>
    { result := .error (.malformedKey e), localGetCount := 0, storeGetCount := 0,
      localPutCount := 0, warnCount := 0, lastUsedPutCount := 0, lastUsed := env.lastUsed0 }
  | .ok keyID =>
    match env.localCacheGet keyID with
    | .ok apiKey =>
      let c := checkAPIKey env apiKey keyID key
      match c.result with
      | .error e =>
        { result := .error e, localGetCount := 1, storeGetCount := 0, localPutCount := 0,
          warnCount := 0, lastUsedPutCount := c.lastUsedPutCount, lastUsed := c.lastUsed }
      | .ok _ =>
        { result := .ok apiKey, localGetCount := 1, storeGetCount := 0, localPutCount := 0,
          warnCount := 0, lastUsedPutCount := c.lastUsedPutCount, lastUsed := c.lastUsed }
    | .error _ =>
      match env.storeGet keyID with
      | .error e =>
        { result := .error (.notFound keyID e), localGetCount := 1, storeGetCount := 1,
          localPutCount := 0, warnCount := 0, lastUsedPutCount := 0, lastUsed := env.lastUsed0 }
      | .ok apiKey =>
        let warns : Nat := match env.localCachePut keyID apiKey with
          | some _ => 1
          | none => 0
        let c := checkAPIKey env apiKey keyID key
        match c.result with
        | .error e =>
          { result := .error e, localGetCount := 1, storeGetCount := 1, localPutCount := 1,
            warnCount := warns, lastUsedPutCount := c.lastUsedPutCount, lastUsed := c.lastUsed }
        | .ok _ =>
          { result := .ok apiKey, localGetCount := 1, storeGetCount := 1, localPutCount := 1,
            warnCount := warns, lastUsedPutCount := c.lastUsedPutCount, lastUsed := c.lastUsed }

/-- The record a `Verify` call validates, if any: the record from the
local cache on a cache hit, else the record from the backing store.
Derived from the resolution path of `Verify` to state properties that are
agnostic to which tier supplied the record. -/
def resolvedRecord (env : Env) (key : String) : Option APIKey :=
  match env.extract key with
  | .error _ => none
  | .ok keyID =>
    match env.localCacheGet keyID with
    | .ok apiKey => some apiKey
    | .error _ =>
      match env.storeGet keyID with
      | .ok apiKey => some apiKey
      | .error _ => none

/-- True exactly on an `invalidSecret` failure result. -/
def isInvalidSecretResult : Except VerifyError APIKey → Bool
  | .error (.invalidSecret _ _) => true
  | _ => false

end ApiKeyVerifier

namespace LiveStateStore

/-- A decoded application live-state snapshot
(`model.ApplicationLiveStateSnapshot`), kept abstract: its fields are
irrelevant to the file-store control flow. -/
structure Snapshot where
  content : String
deriving DecidableEq, Repr

/-- Environment of the file store: the backing blob store's `GetObject`
(returning the raw bytes of the object at a path, or an error) and
`json.Unmarshal` on those bytes (returning a snapshot or an error). -/
structure FsEnv where
  getObject : String → Except String String
  unmarshal : String → Except String Snapshot

/-- Translation of `applicationLiveStatePath` (filestore.go lines 49-51):
the blob path derived from the application identifier. -/
def applicationLiveStatePath (applicationID : String) : String :=
  "application-live-state/" ++ applicationID ++ ".json"

/-- Outcome of a file-store `Put`: its returned error (or unit) and the
number of writes it issued to the backing blob store. -/
structure PutResult where
  result : Except String Unit
  backendWrites : Nat
deriving Repr

/-- Translation of the file store's `Get` (filestore.go lines 31-43):
read the object at the derived path, then unmarshal its content,
propagating either error. -/
def fsGet (env : FsEnv) (applicationID : String) : Except String Snapshot :=
  match env.getObject (applicationLiveStatePath applicationID) with
  | .error e => .error e
  | .ok content =>
    match env.unmarshal content with
    | .error e => .error e
    | .ok s => .ok s

/-- Translation of the file store's `Put` (filestore.go lines 45-47): it
returns `errors.New("unimplemented")` without touching the backing blob
store. -/
def fsPut (env : FsEnv) (applicationID : String) (alss : Snapshot) : PutResult :=
  { result := .error "unimplemented", backendWrites := 0 }

end LiveStateStore

namespace ApiKeyVerifier

/-- Reading back the field just written to the hash cache yields the
written value. -/
theorem getAssoc_putAssoc (m : List (String × Int)) (k : String) (v : Int) :
    getAssoc (putAssoc m k v) k = some v := by
  induction m with
  | nil => simp [putAssoc, getAssoc]
  | cons hd tl ih =>
    obtain ⟨k₁, v₁⟩ := hd
    by_cases h : k₁ = k
    · simp [putAssoc, getAssoc, h]
    · simp [putAssoc, getAssoc, h, ih]

/-- An enabled record whose comparison capability accepts every raw key. -/
def recOK : APIKey :=
  { id := "k1", projectId := "p1", disabled := false, compareKey := fun _ => none }

/-- An enabled record whose comparison capability rejects every raw key. -/
def recBadSecret : APIKey :=
  { id := "k1", projectId := "p1", disabled := false,
    compareKey := fun _ => some "wrong secret" }

/-- A disabled record whose comparison capability accepts every raw key. -/
def recDisabled : APIKey :=
  { id := "k1", projectId := "p1", disabled := true, compareKey := fun _ => none }

/-- A disabled record whose comparison capability also rejects every raw
key. -/
def recDisabledBadSecret : APIKey :=
  { id := "k1", projectId := "p1", disabled := true,
    compareKey := fun _ => some "wrong secret" }

/-- A concrete environment: extraction yields `k1`, the local cache hits
with `recOK`, both cache writes succeed, the store has no record, the
clock reads 100. -/
def baseEnv : Env :=
  { extract := fun _ => .ok "k1",
    localCacheGet := fun _ => .ok recOK,
    localCachePut := fun _ _ => none,
    storeGet := fun _ => .error "store miss",
    lastUsedPut := fun _ _ => none,
    lastUsed0 := [],
    now := 100 }

/-- `baseEnv` with the local cache hitting on an enabled record whose
secret comparison rejects. -/
def envBadSecret : Env := { baseEnv with localCacheGet := fun _ => .ok recBadSecret }

/-- `baseEnv` with the local cache hitting on a disabled record. -/
def envDisabled : Env := { baseEnv with localCacheGet := fun _ => .ok recDisabled }

/-- `baseEnv` with the local cache hitting on a record that is disabled
and whose secret comparison also rejects. -/
def envDisabledBadSecret : Env :=
  { baseEnv with localCacheGet := fun _ => .ok recDisabledBadSecret }

/-- `baseEnv` with an extraction function that fails on every raw key. -/
def envMalformed : Env := { baseEnv with extract := fun _ => .error "wrong format" }

/-- `baseEnv` with a missing local cache entry, a store hit on `recOK`,
and a failing local-cache write-back. -/
def envWriteback : Env :=
  { baseEnv with
    localCacheGet := fun _ => .error "not found",
    storeGet := fun _ => .ok recOK,
    localCachePut := fun _ _ => some "cache full" }

/-- `baseEnv` with a failing distributed last-used write. -/
def envPutFail : Env := { baseEnv with lastUsedPut := fun _ _ => some "redis down" }

/-- `baseEnv` with a missing local cache entry (the store already has no
record in `baseEnv`). -/
def envNotFound : Env := { baseEnv with localCacheGet := fun _ => .error "not found" }

/-- Claim C1: for every raw key whose extracted key id resolves (from the
local cache or the backing store) to a record that is not disabled and
whose secret-comparison capability accepts the raw key, and for which the
distributed last-used Put succeeds, `Verify` returns that record and the
distributed last-used entry for its id is set to a unix timestamp ≥ the
time the call was issued (any `issued` bounded by the clock value the call
observes). -/
theorem verify_valid_key_ok (env : Env) (key id : String) (k : APIKey) (issued : Int)
    (hex : env.extract key = .ok id)
    (hres : resolvedRecord env key = some k)
    (hdis : k.disabled = false)
    (hcmp : k.compareKey key = none)
    (hput : env.lastUsedPut id env.now = none)
    (hiss : issued ≤ env.now) :
    (Verify env key).result = .ok k ∧
    ∃ t, getAssoc (Verify env key).lastUsed id = some t ∧ issued ≤ t := by
  simp only [resolvedRecord, hex] at hres
  cases hloc : env.localCacheGet id with
  | ok k₀ =>
    simp only [hloc] at hres
    injection hres with hk
    subst hk
    simp only [Verify, hex, hloc, checkAPIKey, hdis, hcmp, hput]
    exact ⟨rfl, env.now, getAssoc_putAssoc _ _ _, hiss⟩
  | error ce =>
    simp only [hloc] at hres
    cases hst : env.storeGet id with
    | error se => simp only [hst] at hres; exact Option.noConfusion hres
    | ok k₀ =>
      simp only [hst] at hres
      injection hres with hk
      subst hk
      simp only [Verify, hex, hloc, hst, checkAPIKey, hdis, hcmp, hput]
      exact ⟨rfl, env.now, getAssoc_putAssoc _ _ _, hiss⟩

/-- Witness for C1 at `baseEnv` with issue time 99 and clock 100. -/
theorem verify_valid_key_ok_witness :
    (Verify baseEnv "k1.s3cr3t").result = .ok recOK ∧
    ∃ t, getAssoc (Verify baseEnv "k1.s3cr3t").lastUsed "k1" = some t ∧ (99 : Int) ≤ t :=
  verify_valid_key_ok baseEnv "k1.s3cr3t" "k1" recOK 99 rfl rfl rfl rfl rfl (by decide)

/-- Once the key id is extracted and a record resolved (from either tier),
the result, last-used write count and final last-used state of `Verify`
are those of the `checkAPIKey` validation phase on that record. -/
theorem verify_validation_phase (env : Env) (key id : String) (k : APIKey)
    (hex : env.extract key = .ok id)
    (hres : resolvedRecord env key = some k) :
    (Verify env key).result =
      (match (checkAPIKey env k id key).result with
        | .error e => .error e
        | .ok _ => .ok k) ∧
    (Verify env key).lastUsedPutCount = (checkAPIKey env k id key).lastUsedPutCount ∧
    (Verify env key).lastUsed = (checkAPIKey env k id key).lastUsed := by
  simp only [resolvedRecord, hex] at hres
  cases hloc : env.localCacheGet id with
  | ok k₀ =>
    simp only [hloc] at hres
    injection hres with hk
    subst hk
    simp only [Verify, hex, hloc]
    cases hc : (checkAPIKey env k₀ id key).result with
    | error e => simp [hc]
    | ok u => simp [hc]
  | error ce =>
    simp only [hloc] at hres
    cases hst : env.storeGet id with
    | error se => simp only [hst] at hres; exact Option.noConfusion hres
    | ok k₀ =>
      simp only [hst] at hres
      injection hres with hk
      subst hk
      simp only [Verify, hex, hloc, hst]
      cases hc : (checkAPIKey env k₀ id key).result with
      | error e => simp [hc]
      | ok u => simp [hc]

/-- Counterexample to C2 as stated: at `envDisabledBadSecret` the record
is disabled and its comparison capability rejects the raw key, yet
`Verify` fails with the disabled error, not with an invalid-secret
error — the disabled flag is checked first and is not irrelevant. -/
theorem invalid_secret_counterexample :
    recDisabledBadSecret.disabled = true ∧
    recDisabledBadSecret.compareKey "k1.x" = some "wrong secret" ∧
    (Verify envDisabledBadSecret "k1.x").result = .error (.disabled "k1") ∧
    isInvalidSecretResult (Verify envDisabledBadSecret "k1.x").result = false :=
  ⟨rfl, rfl, rfl, rfl⟩

/-- Claim C2 (amended): for every resolved record that is **not
disabled** and whose secret-comparison capability rejects the raw key,
`Verify` fails with the invalid-secret error wrapping the comparison
error and the key id.  (The original claim also covered disabled records,
but the code checks the disabled flag first.) -/
theorem verify_invalid_secret (env : Env) (key id ce : String) (k : APIKey)
    (hex : env.extract key = .ok id)
    (hres : resolvedRecord env key = some k)
    (hdis : k.disabled = false)
    (hcmp : k.compareKey key = some ce) :
    (Verify env key).result = .error (.invalidSecret id ce) := by
  obtain ⟨h1, -, -⟩ := verify_validation_phase env key id k hex hres
  rw [h1]
  simp [checkAPIKey, hdis, hcmp]

/-- Witness for the amended C2 at `envBadSecret`. -/
theorem verify_invalid_secret_witness :
    (Verify envBadSecret "k1.x").result = .error (.invalidSecret "k1" "wrong secret") :=
  verify_invalid_secret envBadSecret "k1.x" "k1" "wrong secret" recBadSecret rfl rfl rfl rfl

/-- Claim C3: for every resolved record whose disabled flag is true,
`Verify` fails with the disabled error, with no hypothesis on the
secret-comparison capability (the secret is irrelevant). -/
theorem verify_disabled_fails (env : Env) (key id : String) (k : APIKey)
    (hex : env.extract key = .ok id)
    (hres : resolvedRecord env key = some k)
    (hdis : k.disabled = true) :
    (Verify env key).result = .error (.disabled id) := by
  obtain ⟨h1, -, -⟩ := verify_validation_phase env key id k hex hres
  rw [h1]
  simp [checkAPIKey, hdis]

/-- Witness for C3 at `envDisabled`, whose record's comparison capability
would accept the raw key. -/
theorem verify_disabled_fails_witness :
    (Verify envDisabled "k1.s3cr3t").result = .error (.disabled "k1") :=
  verify_disabled_fails envDisabled "k1.s3cr3t" "k1" recDisabled rfl rfl rfl

/-- The validation phase attempts the distributed last-used write exactly
when the disabled check and the secret comparison both pass. -/
theorem checkAPIKey_putCount (env : Env) (k : APIKey) (id key : String) :
    (checkAPIKey env k id key).lastUsedPutCount =
      if k.disabled = false ∧ k.compareKey key = none then 1 else 0 := by
  unfold checkAPIKey
  by_cases hdis : k.disabled
  · simp [hdis]
  · simp only [Bool.not_eq_true] at hdis
    cases hcmp : k.compareKey key with
    | some e => simp [hdis, hcmp]
    | none =>
      cases hput : env.lastUsedPut id env.now with
      | some e => simp [hdis, hcmp, hput]
      | none => simp [hdis, hcmp, hput]

/-- Claim C4: in every `Verify` call, the distributed last-used cache
write is attempted exactly once if a record resolved and both its
disabled check and its secret comparison passed, and never otherwise — so
calls failing with malformed-key, not-found, disabled or invalid-secret
never attempt it, and (the embedding being strictly sequential) the write
never precedes validation. -/
theorem lastUsed_write_iff_validated (env : Env) (key : String) :
    (Verify env key).lastUsedPutCount =
      (match resolvedRecord env key with
        | some k => if k.disabled = false ∧ k.compareKey key = none then 1 else 0
        | none => 0) := by
  cases hex : env.extract key with
  | error e => simp [Verify, resolvedRecord, hex]
  | ok id =>
    cases hres : resolvedRecord env key with
    | some k =>
      obtain ⟨-, h2, -⟩ := verify_validation_phase env key id k hex hres
      rw [h2, checkAPIKey_putCount]
    | none =>
      simp only [resolvedRecord, hex] at hres
      cases hloc : env.localCacheGet id with
      | ok k => simp [hloc] at hres
      | error ce =>
        simp only [hloc] at hres
        cases hst : env.storeGet id with
        | ok k => simp [hst] at hres
        | error se => simp [Verify, hex, hloc, hst]

/-- Claim C5: for every raw key on which extraction fails, `Verify` fails
with the extraction error and makes no local-cache, store or
distributed-cache call (all counters zero, distributed state untouched). -/
theorem verify_malformed_no_calls (env : Env) (key e : String)
    (hex : env.extract key = .error e) :
    (Verify env key).result = .error (.malformedKey e) ∧
    (Verify env key).localGetCount = 0 ∧
    (Verify env key).storeGetCount = 0 ∧
    (Verify env key).localPutCount = 0 ∧
    (Verify env key).lastUsedPutCount = 0 ∧
    (Verify env key).lastUsed = env.lastUsed0 := by
  simp [Verify, hex]

/-- Witness for C5 at `envMalformed`. -/
theorem verify_malformed_no_calls_witness :
    (Verify envMalformed "###").result = .error (.malformedKey "wrong format") ∧
    (Verify envMalformed "###").localGetCount = 0 ∧
    (Verify envMalformed "###").storeGetCount = 0 ∧
    (Verify envMalformed "###").localPutCount = 0 ∧
    (Verify envMalformed "###").lastUsedPutCount = 0 ∧
    (Verify envMalformed "###").lastUsed = envMalformed.lastUsed0 :=
  verify_malformed_no_calls envMalformed "###" "wrong format" rfl

/-- Claim C6: a local-cache miss followed by a store hit on a valid
record still succeeds when the local write-back fails: `Verify` returns
the record, the distributed last-used entry is written, and the only
trace of the write-back failure is one logger warning. -/
theorem verify_writeback_failure_nonfatal (env : Env) (key id ce pe : String) (k : APIKey)
    (hex : env.extract key = .ok id)
    (hloc : env.localCacheGet id = .error ce)
    (hst : env.storeGet id = .ok k)
    (hdis : k.disabled = false)
    (hcmp : k.compareKey key = none)
    (hwb : env.localCachePut id k = some pe)
    (hput : env.lastUsedPut id env.now = none) :
    (Verify env key).result = .ok k ∧
    getAssoc (Verify env key).lastUsed id = some env.now ∧
    (Verify env key).warnCount = 1 := by
  simp only [Verify, hex, hloc, hst, hwb, checkAPIKey, hdis, hcmp, hput]
  exact ⟨rfl, getAssoc_putAssoc _ _ _, rfl⟩

/-- Witness for C6 at `envWriteback`. -/
theorem verify_writeback_failure_nonfatal_witness :
    (Verify envWriteback "k1.s3cr3t").result = .ok recOK ∧
    getAssoc (Verify envWriteback "k1.s3cr3t").lastUsed "k1" = some envWriteback.now ∧
    (Verify envWriteback "k1.s3cr3t").warnCount = 1 :=
  verify_writeback_failure_nonfatal envWriteback "k1.s3cr3t" "k1" "not found" "cache full"
    recOK rfl rfl rfl rfl rfl rfl rfl

/-- Claim C7: when the resolved record passes the disabled check and the
secret comparison but the distributed last-used write fails, `Verify`
aborts with the last-used-write error and does not return the record. -/
theorem verify_lastused_write_failure_fatal (env : Env) (key id e : String) (k : APIKey)
    (hex : env.extract key = .ok id)
    (hres : resolvedRecord env key = some k)
    (hdis : k.disabled = false)
    (hcmp : k.compareKey key = none)
    (hput : env.lastUsedPut id env.now = some e) :
    (Verify env key).result = .error (.lastUsedWriteFailure id e) := by
  obtain ⟨h1, -, -⟩ := verify_validation_phase env key id k hex hres
  rw [h1]
  simp [checkAPIKey, hdis, hcmp, hput]

/-- Witness for C7 at `envPutFail`. -/
theorem verify_lastused_write_failure_fatal_witness :
    (Verify envPutFail "k1.s3cr3t").result = .error (.lastUsedWriteFailure "k1" "redis down") :=
  verify_lastused_write_failure_fatal envPutFail "k1.s3cr3t" "k1" "redis down" recOK
    rfl rfl rfl rfl rfl

/-- Claim C8: a local-cache miss followed by a failing store fetch makes
`Verify` fail with the not-found error wrapping the key id and the
store's underlying error, with no last-used write attempted and the
distributed state untouched. -/
theorem verify_store_notfound (env : Env) (key id ce se : String)
    (hex : env.extract key = .ok id)
    (hloc : env.localCacheGet id = .error ce)
    (hst : env.storeGet id = .error se) :
    (Verify env key).result = .error (.notFound id se) ∧
    (Verify env key).lastUsedPutCount = 0 ∧
    (Verify env key).lastUsed = env.lastUsed0 := by
  simp [Verify, hex, hloc, hst]

/-- Witness for C8 at `envNotFound`. -/
theorem verify_store_notfound_witness :
    (Verify envNotFound "k1.s3cr3t").result = .error (.notFound "k1" "store miss") ∧
    (Verify envNotFound "k1.s3cr3t").lastUsedPutCount = 0 ∧
    (Verify envNotFound "k1.s3cr3t").lastUsed = envNotFound.lastUsed0 :=
  verify_store_notfound envNotFound "k1.s3cr3t" "k1" "not found" "store miss" rfl rfl rfl

/-- Claim C10: any local-cache read error is treated exactly as a miss:
`Verify` proceeds to the backing store (one store call) and the whole
outcome coincides with that of the same environment whose local cache
misses with any other error, so a local-cache read failure never by
itself fails the call. -/
theorem localcache_error_treated_as_miss (env : Env) (key id e : String)
    (hex : env.extract key = .ok id)
    (hloc : env.localCacheGet id = .error e) :
    (Verify env key).storeGetCount = 1 ∧
    Verify env key = Verify { env with localCacheGet := fun _ => .error "not found" } key := by
  cases hst : env.storeGet id with
  | error se => simp [Verify, hex, hloc, hst]
  | ok k =>
    by_cases hdis : k.disabled
    · simp [Verify, checkAPIKey, hex, hloc, hst, hdis]
    · simp only [Bool.not_eq_true] at hdis
      cases hcmp : k.compareKey key with
      | some e₂ => simp [Verify, checkAPIKey, hex, hloc, hst, hdis, hcmp]
      | none =>
        cases hput : env.lastUsedPut id env.now with
        | some e₂ => simp [Verify, checkAPIKey, hex, hloc, hst, hdis, hcmp, hput]
        | none => simp [Verify, checkAPIKey, hex, hloc, hst, hdis, hcmp, hput]

/-- Witness for C10 at `envNotFound` (read error "not found"). -/
theorem localcache_error_treated_as_miss_witness :
    (Verify envNotFound "k1.s3cr3t").storeGetCount = 1 ∧
    Verify envNotFound "k1.s3cr3t" =
      Verify { envNotFound with localCacheGet := fun _ => .error "not found" } "k1.s3cr3t" :=
  localcache_error_treated_as_miss envNotFound "k1.s3cr3t" "k1" "not found" rfl rfl

end ApiKeyVerifier

namespace LiveStateStore

/-- Claim C9: for every application identifier and snapshot, the snapshot
reader's `Put` fails with the unimplemented error and issues no write to
the backing blob store, while its `Get` is exactly a read of the JSON
document at the path derived from the application identifier followed by
unmarshalling. -/
theorem fsPut_always_fails_fsGet_reads_derived_path
    (env : FsEnv) (applicationID : String) (alss : Snapshot) :
    (fsPut env applicationID alss).result = .error "unimplemented" ∧
    (fsPut env applicationID alss).backendWrites = 0 ∧
    applicationLiveStatePath applicationID =
      "application-live-state/" ++ applicationID ++ ".json" ∧
    fsGet env applicationID =
      (env.getObject (applicationLiveStatePath applicationID)).bind env.unmarshal := by
  refine ⟨rfl, rfl, rfl, ?_⟩
  unfold fsGet
  cases h : env.getObject (applicationLiveStatePath applicationID) with
  | error e => simp [Except.bind, h]
  | ok content =>
    cases hu : env.unmarshal content with
    | error e => simp [Except.bind, h, hu]
    | ok s => simp [Except.bind, h, hu]

end LiveStateStore
